import Mathlib

/-!
Shallow embedding of the session-management and conversation-synchronization
core of the HackX frontend.

The embedding follows the TypeScript source:
  frontend/src/lib/auth.ts                (AuthService)
  frontend/src/hooks/use-auth-validation.ts (useAuthValidation)
  frontend/src/pages/Report.tsx           (loadReport, bootstrap effect, sendMessage)
  ChatSidebar component                   (fetchReports)

Conventions of the embedding:
  the localStorage slot for the auth token is a value of type Option String
  threaded explicitly; a fetch is modelled by handing the function the
  environment answer (HttpResult) for the one request it may issue, and the
  function returns the list of requests it actually issued, each reduced to
  method, path and the value of its Authorization header.  JavaScript
  truthiness tests on strings and numbers are translated explicitly
  (the empty string and the number 0 are falsy).
-/

namespace HackX

/-- One outbound HTTP request, reduced to the fields the specification reasons
about: the method, the path, and the Authorization header value if one was
attached. -/
structure Request where
  method : String
  path : String
  authorization : Option String
  deriving DecidableEq, Repr

/-- Environment answer to a single fetch: a transport failure (the promise
rejects), or a response with a status code and an already parsed body. -/
inductive HttpResult (β : Type) where
  | networkError : HttpResult β
  | response (status : Nat) (body : β) : HttpResult β
  deriving DecidableEq, Repr

/-- Translation of response.ok of the fetch API: status in [200, 300). -/
def statusOk (status : Nat) : Bool :=
  200 ≤ status && status < 300

/-- JavaScript truthiness of a possibly absent string: null, undefined and
the empty string are falsy. -/
def tokenTruthy : Option String → Option String
  | none => none
  | some t => if t == "" then none else some t

/-- Bearer header value built from a token, as in the source template
literal Bearer followed by the token. -/
def bearer (token : String) : String :=
  "Bearer " ++ token

namespace AuthService

/-- The localStorage slot under the fixed key auth_token. -/
abbrev TokenStore := Option String

/-- AuthService.setToken: localStorage.setItem overwrites the slot. -/
def setToken (_store : TokenStore) (token : String) : TokenStore :=
  some token

/-- AuthService.getToken: localStorage.getItem reads the slot. -/
def getToken (store : TokenStore) : Option String :=
  store

/-- AuthService.clearToken: localStorage.removeItem empties the slot. -/
def clearToken (_store : TokenStore) : TokenStore :=
  none

/-- AuthService.isAuthenticated: double negation of getToken, so the empty
string also counts as unauthenticated. -/
def isAuthenticated (store : TokenStore) : Bool :=
  (tokenTruthy (getToken store)).isSome

end AuthService

/-- The user_info object inside the backend identity payload. -/
structure GoogleProfile where
  email : String
  name : Option String
  picture : Option String
  given_name : Option String
  family_name : Option String
  deriving DecidableEq, Repr

/-- The UserInfo interface of auth.ts: the parsed body of GET /auth/me. -/
structure UserInfo where
  authenticated : Bool
  email : String
  user_info : GoogleProfile
  last_login : Option String
  watch_active : Bool
  watch_expires : Option String
  last_sync : Option String
  email_count : Nat
  deriving DecidableEq, Repr

/-- Outcome of one AuthService.getCurrentUser pass: the token slot after the
pass, the returned value (UserInfo or null), and the requests issued. -/
structure ValidatorResult where
  store : AuthService.TokenStore
  user : Option UserInfo
  requests : List Request
  deriving DecidableEq, Repr

/-- The GET /auth/me request with its bearer authorization header. -/
def authMeRequest (token : String) : Request :=
  { method := "GET", path := "/auth/me", authorization := some (bearer token) }

/-- AuthService.getCurrentUser.  If no truthy token is stored it returns null
without any request.  Otherwise it issues GET /auth/me with the bearer
header; on a 2xx it returns the parsed body; on a 401 it clears the token and
returns null; on any other status it throws, and the surrounding catch
swallows the error and returns null without clearing the token; a transport
failure likewise lands in the catch and returns null. -/
def getCurrentUser (store : AuthService.TokenStore) (net : HttpResult UserInfo) :
    ValidatorResult :=
  match tokenTruthy (AuthService.getToken store) with
  | none => { store := store, user := none, requests := [] }
  | some token =>
    match net with
    | .networkError =>
      { store := store, user := none, requests := [authMeRequest token] }
    | .response status body =>
      if statusOk status then
        { store := store, user := some body, requests := [authMeRequest token] }
      else if status == 401 then
        { store := AuthService.clearToken store, user := none,
          requests := [authMeRequest token] }
      else
        { store := store, user := none, requests := [authMeRequest token] }

/-- Outcome of AuthService.handleCallback: the token slot afterwards and the
returned token. -/
structure CallbackResult where
  store : AuthService.TokenStore
  token : Option String
  deriving DecidableEq, Repr

/-- AuthService.handleCallback: reads the token query parameter of the page
address; a present truthy token is stored and returned, otherwise nothing
happens (URLSearchParams.get yields null when absent, and the empty string is
falsy). -/
def handleCallback (store : AuthService.TokenStore) (urlToken : Option String) :
    CallbackResult :=
  match urlToken with
  | none => { store := store, token := none }
  | some t =>
    if t == "" then { store := store, token := none }
    else { store := AuthService.setToken store t, token := some t }

/-- Navigation decision of the auth gate. -/
inductive Redirect where
  | stay
  | toDashboard
  | toSignIn
  deriving DecidableEq, Repr

/-- Outcome of one validateAuth pass of useAuthValidation: token slot, user
state, navigation decision and requests issued. -/
structure GateResult where
  store : AuthService.TokenStore
  user : Option UserInfo
  redirect : Redirect
  requests : List Request
  deriving DecidableEq, Repr

/-- The validateAuth body of useAuthValidation: run handleCallback, then
getCurrentUser; with a user, navigate to /dashboard when the path is /signin
or /signup and stay otherwise; with no user, clear the token and stay (the
hook issues no navigation on the unauthenticated branch). -/
def validateAuth (store : AuthService.TokenStore) (urlToken : Option String)
    (net : HttpResult UserInfo) (pathname : String) : GateResult :=
  let cb := handleCallback store urlToken
  let vr := getCurrentUser cb.store net
  match vr.user with
  | some u =>
    if pathname == "/signin" || pathname == "/signup" then
      { store := vr.store, user := some u, redirect := .toDashboard,
        requests := vr.requests }
    else
      { store := vr.store, user := some u, redirect := .stay,
        requests := vr.requests }
  | none =>
    { store := AuthService.clearToken vr.store, user := none,
      redirect := .stay, requests := vr.requests }

/-- Error taxonomy of AuthService.authenticatedFetch. -/
inductive GatewayError where
  | missingCredential
  | authExpired
  | networkError
  deriving DecidableEq, Repr

/-- Outcome of one AuthService.authenticatedFetch call. -/
structure GatewayResult (β : Type) where
  store : AuthService.TokenStore
  result : Except GatewayError (Nat × β)
  requests : List Request

/-- AuthService.authenticatedFetch: with no truthy token it throws a local
missing-credential error before any request; otherwise it issues the request
with the bearer header; a 401 clears the token and throws authentication
expired; any other response is returned to the caller unmodified. -/
def authenticatedFetch (β : Type) (store : AuthService.TokenStore)
    (method endpoint : String) (net : HttpResult β) : GatewayResult β :=
  match tokenTruthy (AuthService.getToken store) with
  | none =>
    { store := store, result := .error .missingCredential, requests := [] }
  | some token =>
    let req : Request :=
      { method := method, path := endpoint, authorization := some (bearer token) }
    match net with
    | .networkError =>
      { store := store, result := .error .networkError, requests := [req] }
    | .response status body =>
      if status == 401 then
        { store := AuthService.clearToken store, result := .error .authExpired,
          requests := [req] }
      else
        { store := store, result := .ok (status, body), requests := [req] }

/-- Message role union of Report.tsx. -/
inductive Role where
  | user
  | assistant
  deriving DecidableEq, Repr

/-- One chat message of Report.tsx. -/
structure Message where
  role : Role
  content : String
  deriving DecidableEq, Repr

/-- One discrepancy entry of a report. -/
structure Discrepancy where
  name : String
  details : String
  deriving DecidableEq, Repr

/-- The CompareResponse type of Report.tsx: a full report payload; the
messages field is optional. -/
structure CompareResponse where
  id : Option Nat
  vendor_id : Option String
  discrepancy : List Discrepancy
  summary : String
  messages : Option (List Message)
  deriving DecidableEq, Repr

/-- The hard-coded assistant welcome message of Report.tsx. -/
def welcomeMessage : Message :=
  { role := .assistant,
    content := "Hi! I generated a quick summary and highlighted differences. Ask me anything about this verification." }

/-- The hard-coded assistant reply appended when a send fails. -/
def errorReplyMessage : Message :=
  { role := .assistant,
    content := "Sorry, I encountered an error processing your message." }

/-- The generic acknowledgment used when the response field is falsy. -/
def genericAck : String :=
  "I understand your question."

/-- JavaScript truthiness fallback on strings, translating the expression
data.response or-else default: an absent or empty string yields the
fallback. -/
def jsOrString (value : Option String) (fallback : String) : String :=
  match value with
  | none => fallback
  | some s => if s == "" then fallback else s

/-- Drop leading whitespace characters of a character list; structural
recursion so that concrete inputs evaluate inside the kernel. -/
def dropLeadingWhitespace : List Char → List Char
  | [] => []
  | c :: cs => if c.isWhitespace then dropLeadingWhitespace cs else c :: cs

/-- Translation of the trim method on strings: strip leading and trailing
whitespace. -/
def jsTrim (s : String) : String :=
  String.mk ((dropLeadingWhitespace (dropLeadingWhitespace s.data).reverse).reverse)

/-- JavaScript truthiness of the reportId value of Report.tsx, which has
type number or undefined: undefined and 0 are falsy. -/
def idTruthy : Option Nat → Bool
  | none => false
  | some n => n != 0

/-- Message bootstrap of the loadReport body: data.messages present (an
array, even empty, is truthy) is adopted verbatim; an absent field falls
back to the single welcome message. -/
def loadReportMessages (reportMessages : Option (List Message)) : List Message :=
  match reportMessages with
  | some ms => ms
  | none => [welcomeMessage]

/-- Outcome of the loadReport effect of Report.tsx. -/
structure LoadResult where
  report : Option CompareResponse
  messages : List Message
  requests : List Request
  deriving DecidableEq, Repr

/-- The GET request issued by loadReport; it carries no authorization
header (only the ngrok skip header, which the embedding does not track). -/
def reportRequest (rid : Nat) : Request :=
  { method := "GET", path := "/reports/" ++ toString rid, authorization := none }

/-- Body of the loadReport effect of Report.tsx once its guard has passed:
fetch GET /reports/id with no authorization header; on a 2xx adopt the body
and bootstrap messages from it; on any failure (transport error or non-2xx,
which throws into the catch) leave the report unset and set the single
welcome message. -/
def loadReport (rid : Nat) (net : HttpResult CompareResponse) : LoadResult :=
  match net with
  | .networkError =>
    { report := none, messages := [welcomeMessage], requests := [reportRequest rid] }
  | .response status body =>
    if statusOk status then
      { report := some body, messages := loadReportMessages body.messages,
        requests := [reportRequest rid] }
    else
      { report := none, messages := [welcomeMessage], requests := [reportRequest rid] }

/-- The loadReport effect including its guard: it returns early, issuing no
request and leaving state unchanged, when the report is already present or
the reportId is falsy (undefined or 0). -/
def loadReportEffect (reportId : Option Nat) (report : Option CompareResponse)
    (messages0 : List Message) (net : HttpResult CompareResponse) : LoadResult :=
  if !(idTruthy reportId) || report.isSome then
    { report := report, messages := messages0, requests := [] }
  else
    match reportId with
    | none => { report := report, messages := messages0, requests := [] }
    | some rid => loadReport rid net

/-- The bootstrap effect of Report.tsx (runs when the report value changes):
if report.messages is truthy (any array, even empty) and the transcript is
empty, adopt it verbatim; otherwise, if the transcript is empty, seed the
single welcome message; a non-empty transcript is left unchanged. -/
def bootstrapMessages (reportMessages : Option (List Message))
    (messages0 : List Message) : List Message :=
  match reportMessages with
  | some ms => if messages0.length == 0 then ms else messages0
  | none => if messages0.length == 0 then [welcomeMessage] else messages0

/-- Parsed body of POST /message/id; the response field is optional. -/
structure MessageResponse where
  response : Option String
  deriving DecidableEq, Repr

/-- Outcome of one sendMessage call of Report.tsx. -/
structure SendResult where
  messages : List Message
  requests : List Request
  deriving DecidableEq, Repr

/-- The POST request issued by sendMessage; it carries no authorization
header. -/
def messageRequest (rid : Nat) : Request :=
  { method := "POST", path := "/message/" ++ toString rid, authorization := none }

/-- The sendMessage function of Report.tsx: a no-op when the trimmed text is
falsy or the reportId is falsy; otherwise the user message is appended
optimistically, the POST is issued without an authorization header, and one
assistant message is appended: on a 2xx the response field (or the generic
acknowledgment when that field is falsy), on any failure the fixed error
reply.  The transcript is never rolled back. -/
def sendMessage (messages0 : List Message) (reportId : Option Nat)
    (message : String) (net : HttpResult MessageResponse) : SendResult :=
  if jsTrim message == "" || !(idTruthy reportId) then
    { messages := messages0, requests := [] }
  else
    match reportId with
    | none => { messages := messages0, requests := [] }
    | some rid =>
      let afterUser := messages0 ++ [{ role := .user, content := message }]
      match net with
      | .networkError =>
        { messages := afterUser ++ [errorReplyMessage],
          requests := [messageRequest rid] }
      | .response status body =>
        if statusOk status then
          { messages :=
              afterUser ++ [{ role := .assistant,
                              content := jsOrString body.response genericAck }],
            requests := [messageRequest rid] }
        else
          { messages := afterUser ++ [errorReplyMessage],
            requests := [messageRequest rid] }

/-- The ReportItem projection used by the sidebar list. -/
structure ReportItem where
  vendor_id : Option String
  discrepancy : List Discrepancy
  summary : String
  deriving DecidableEq, Repr

/-- Component state of the ChatSidebar list. -/
structure SidebarState where
  reports : List ReportItem
  loading : Bool
  error : Option String
  deriving DecidableEq, Repr

/-- Initial ChatSidebar state: empty list, not loading, no error. -/
def initialSidebarState : SidebarState :=
  { reports := [], loading := false, error := none }

/-- Authorization header value the sidebar attaches: the bearer header when a
truthy token is stored, nothing otherwise (the request is still sent). -/
def bearerIfTruthy (store : AuthService.TokenStore) : Option String :=
  match tokenTruthy (AuthService.getToken store) with
  | some t => some (bearer t)
  | none => none

/-- The GET /reports request of the sidebar with the given authorization
header value. -/
def reportsRequest (auth : Option String) : Request :=
  { method := "GET", path := "/reports", authorization := auth }

/-- The fetchReports effect of ChatSidebar: it always issues one
GET /reports request, attaching the bearer header only when a token is
stored; on a 2xx the body (an array) replaces the list and the error is
cleared; on any failure (transport error or non-2xx, which throws into the
catch) the list is left as it was and the error message is recorded; loading
ends either way, and no retry is issued. -/
def fetchReports (st0 : SidebarState) (store : AuthService.TokenStore)
    (net : HttpResult (List ReportItem)) : SidebarState × List Request :=
  let req := reportsRequest (bearerIfTruthy store)
  match net with
  | .networkError =>
    ({ st0 with loading := false, error := some "Unable to load reports" }, [req])
  | .response status body =>
    if statusOk status then
      ({ st0 with reports := body, loading := false, error := none }, [req])
    else
      ({ st0 with loading := false, error := some "Unable to load reports" }, [req])

/-- Failure of a fetch: the promise rejects, or the response status is not
ok so the handler throws into its catch. -/
def fetchFails {β : Type} (net : HttpResult β) : Prop :=
  net = HttpResult.networkError ∨
    ∃ status body, net = HttpResult.response status body ∧ statusOk status = false

/-- Failure of a fetch with any status other than 401. -/
def fetchFailsNon401 {β : Type} (net : HttpResult β) : Prop :=
  net = HttpResult.networkError ∨
    ∃ status body, net = HttpResult.response status body ∧
      statusOk status = false ∧ status ≠ 401

/-- Concrete profile used by closed witness statements. -/
def demoProfile : GoogleProfile :=
  { email := "a@b.com", name := none, picture := none,
    given_name := none, family_name := none }

/-- Concrete identity payload used by closed witness statements. -/
def demoUser : UserInfo :=
  { authenticated := true, email := "a@b.com", user_info := demoProfile,
    last_login := none, watch_active := false, watch_expires := none,
    last_sync := none, email_count := 0 }

/-- C6: after clearToken the store reads back absent, and an authenticated
call attempted afterwards fails locally with the missing-credential error
while issuing no network request. -/
theorem C6_clear_then_missing_credential (β : Type) (s : AuthService.TokenStore)
    (m e : String) (net : HttpResult β) :
    AuthService.getToken (AuthService.clearToken s) = none ∧
    (authenticatedFetch β (AuthService.clearToken s) m e net).result
        = Except.error GatewayError.missingCredential ∧
    (authenticatedFetch β (AuthService.clearToken s) m e net).requests = [] :=
  ⟨rfl, rfl, rfl⟩

/-- C5: a validation pass that starts with a nonempty Credential stored and
receives a 401 to the identity request ends with the Credential cleared and
no user returned, having issued exactly the one bearer-authenticated
identity request. -/
theorem C5_validator_401_clears (t : String) (b : UserInfo) (h : t ≠ "") :
    getCurrentUser (some t) (HttpResult.response 401 b)
      = { store := none, user := none, requests := [authMeRequest t] } := by
  have hb : (t == "") = false := by simp [h]
  simp [getCurrentUser, tokenTruthy, AuthService.getToken, AuthService.clearToken,
    statusOk, hb]

/-- Witness for C5 at the concrete token tok and a concrete 401 body. -/
theorem C5_validator_401_clears_witness :
    getCurrentUser (some "tok") (HttpResult.response 401 demoUser)
      = { store := none, user := none, requests := [authMeRequest "tok"] } :=
  C5_validator_401_clears "tok" demoUser (by decide)

/-- C4 counterexample: a resolved report whose messages field is the empty
array yields an empty transcript, not the single welcome message the claim
requires (an empty array is truthy in JavaScript, so it is adopted
verbatim). -/
theorem C4_counterexample :
    bootstrapMessages (some []) [] = [] ∧
    bootstrapMessages (some []) [] ≠ [welcomeMessage] :=
  ⟨rfl, by decide⟩

/-- C4 amended: a present messages field, even the empty array, is adopted
verbatim by both resolution paths; the single welcome message is seeded
exactly when the field is absent.  In particular two messages are adopted in
order, and an empty array yields an empty transcript. -/
theorem C4_bootstrap_amended (m1 m2 : Message) :
    bootstrapMessages (some [m1, m2]) [] = [m1, m2] ∧
    bootstrapMessages none [] = [welcomeMessage] ∧
    bootstrapMessages (some []) [] = [] ∧
    loadReportMessages (some [m1, m2]) = [m1, m2] ∧
    loadReportMessages none = [welcomeMessage] ∧
    loadReportMessages (some []) = [] :=
  ⟨rfl, rfl, rfl, rfl, rfl, rfl⟩

/-- C9: sending blank text (trimmed empty) or sending with no known report
identifier changes nothing: the transcript is unchanged and no request is
issued. -/
theorem C9_blank_or_unknown_id_noop (ms : List Message) (rid : Option Nat)
    (msg : String) (net : HttpResult MessageResponse)
    (h : jsTrim msg = "" ∨ rid = none) :
    sendMessage ms rid msg net = { messages := ms, requests := [] } := by
  rcases h with h | h
  · have h1 : (jsTrim msg == "") = true := by simp [h]
    simp [sendMessage, h1]
  · subst h
    simp [sendMessage, idTruthy]

/-- Witness for C9 at whitespace-only input with a known report id. -/
theorem C9_blank_or_unknown_id_noop_witness :
    sendMessage [welcomeMessage] (some 7) "   " HttpResult.networkError
      = { messages := [welcomeMessage], requests := [] } :=
  C9_blank_or_unknown_id_noop [welcomeMessage] (some 7) "   "
    HttpResult.networkError (Or.inl (by decide))

/-- Helper: a failing identity fetch never yields a user, whatever the
stored token is. -/
theorem getCurrentUser_user_none_of_fails (s : AuthService.TokenStore)
    (net : HttpResult UserInfo) (h : fetchFails net) :
    (getCurrentUser s net).user = none := by
  rcases h with h | ⟨st, b, rfl, hst⟩
  · subst h
    unfold getCurrentUser
    cases tokenTruthy (AuthService.getToken s) <;> rfl
  · unfold getCurrentUser
    cases tokenTruthy (AuthService.getToken s) with
    | none => rfl
    | some tok =>
      simp only [hst, Bool.false_eq_true, if_false]
      split <;> rfl

/-- C3: a validation pass that starts with a Credential present and whose
identity request fails other than with a 401 (transport error or other
non-2xx) ends fail-closed: the stored Credential is absent afterwards and no
user is produced.  The clearing happens in the unauthenticated branch of the
hook, not inside getCurrentUser itself. -/
theorem C3_non401_failure_fail_closed (t : String) (urlTok : Option String)
    (net : HttpResult UserInfo) (pathname : String) (h : fetchFailsNon401 net) :
    (validateAuth (some t) urlTok net pathname).store = none ∧
    (validateAuth (some t) urlTok net pathname).user = none := by
  have hf : fetchFails net := by
    rcases h with h | ⟨st, b, rfl, hst, _⟩
    · exact Or.inl h
    · exact Or.inr ⟨st, b, rfl, hst⟩
  have hu := getCurrentUser_user_none_of_fails (handleCallback (some t) urlTok).store net hf
  constructor <;> simp [validateAuth, hu, AuthService.clearToken]

/-- Witness for C3 at a concrete token, a transport failure and a protected
path. -/
theorem C3_non401_failure_fail_closed_witness :
    (validateAuth (some "tok") none HttpResult.networkError "/dashboard").store = none ∧
    (validateAuth (some "tok") none HttpResult.networkError "/dashboard").user = none :=
  C3_non401_failure_fail_closed "tok" none HttpResult.networkError "/dashboard"
    (Or.inl rfl)

/-- C2 counterexample: with no stored Credential (hence no session) on the
protected path /dashboard, the gate stays instead of redirecting to
sign-in as the claim requires; the hook has no navigation on its
unauthenticated branch. -/
theorem C2_counterexample :
    (validateAuth none none HttpResult.networkError "/dashboard").redirect
        = Redirect.stay ∧
    Redirect.stay ≠ Redirect.toSignIn :=
  ⟨rfl, by decide⟩

/-- C2 amended: the gate redirects to the dashboard exactly when the pass
produced a user and the path is /signin or /signup; in every other
combination, including no session on a protected view, it issues no
redirect (it never produces a sign-in redirect). -/
theorem C2_gate_redirect_characterization (store : AuthService.TokenStore)
    (urlTok : Option String) (net : HttpResult UserInfo) (pathname : String) :
    (validateAuth store urlTok net pathname).redirect =
      (if (validateAuth store urlTok net pathname).user.isSome
          && (pathname == "/signin" || pathname == "/signup")
       then Redirect.toDashboard else Redirect.stay) := by
  cases hu : (getCurrentUser (handleCallback store urlTok).store net).user with
  | none => simp [validateAuth, hu]
  | some u =>
    cases hp : (pathname == "/signin" || pathname == "/signup") <;>
      simp [validateAuth, hu, hp]

/-- C7: a send of non-blank text with a truthy report id whose request fails
(transport error or non-2xx) still appends the user message, followed by
exactly one assistant error message; the transcript is not rolled back. -/
theorem C7_failed_send_appends (ms : List Message) (rid : Nat) (msg : String)
    (net : HttpResult MessageResponse) (hmsg : jsTrim msg ≠ "") (hrid : rid ≠ 0)
    (hnet : fetchFails net) :
    (sendMessage ms (some rid) msg net).messages
      = ms ++ [{ role := Role.user, content := msg }, errorReplyMessage] := by
  have h1 : (jsTrim msg == "") = false := by simp [hmsg]
  have h2 : (rid != 0) = true := by simp [hrid]
  rcases hnet with h | ⟨st, b, rfl, hst⟩
  · subst h
    simp [sendMessage, h1, idTruthy, h2]
  · simp [sendMessage, h1, idTruthy, h2, hst]

/-- Witness for C7: a failing send of hello from an empty transcript leaves
the user turn followed by the fixed assistant error reply. -/
theorem C7_failed_send_appends_witness :
    (sendMessage [] (some 1) "hello" HttpResult.networkError).messages
      = [{ role := Role.user, content := "hello" }, errorReplyMessage] :=
  C7_failed_send_appends [] 1 "hello" HttpResult.networkError
    (by decide) (by decide) (Or.inl rfl)

/-- C8 counterexample: a successful send whose response field is present but
empty ends with the generic acknowledgment, not with the (empty) reply
field, because the source applies JavaScript truthiness to the field. -/
theorem C8_counterexample :
    (sendMessage [] (some 1) "hello"
        (HttpResult.response 200 { response := some "" })).messages
      = [{ role := Role.user, content := "hello" },
         { role := Role.assistant, content := genericAck }] ∧
    genericAck ≠ "" :=
  ⟨by decide, by decide⟩

/-- C8 amended: a successful send of non-blank text with a truthy report id
grows the transcript by the user message and one assistant message whose
content is the response field when that field is present and non-empty, and
the generic acknowledgment when it is absent or empty. -/
theorem C8_successful_send (ms : List Message) (rid : Nat) (msg : String)
    (st : Nat) (reply : Option String) (hmsg : jsTrim msg ≠ "") (hrid : rid ≠ 0)
    (hst : statusOk st = true) :
    (sendMessage ms (some rid) msg (HttpResult.response st { response := reply })).messages
      = ms ++ [{ role := Role.user, content := msg },
               { role := Role.assistant, content := jsOrString reply genericAck }] := by
  have h1 : (jsTrim msg == "") = false := by simp [hmsg]
  have h2 : (rid != 0) = true := by simp [hrid]
  simp [sendMessage, h1, idTruthy, h2, hst]

/-- Witness for C8: the send of hello succeeding with the reply ok ends with
the assistant message ok. -/
theorem C8_successful_send_witness :
    (sendMessage [] (some 1) "hello"
        (HttpResult.response 200 { response := some "ok" })).messages
      = [{ role := Role.user, content := "hello" },
         { role := Role.assistant, content := "ok" }] := by
  have h := C8_successful_send [] 1 "hello" 200 (some "ok")
    (by decide) (by decide) (by decide)
  exact h.trans (by decide)

/-- C10: a failing sidebar fetch (transport error or non-2xx, both landing
in the catch rather than escaping) leaves the report list empty, records the
error message, ends loading, and has issued exactly one request — there is
no retry. -/
theorem C10_fetch_reports_failure (store : AuthService.TokenStore)
    (net : HttpResult (List ReportItem)) (h : fetchFails net) :
    (fetchReports initialSidebarState store net).1
        = { reports := [], loading := false,
            error := some "Unable to load reports" } ∧
    (fetchReports initialSidebarState store net).2
        = [reportsRequest (bearerIfTruthy store)] := by
  rcases h with h | ⟨st, b, rfl, hst⟩
  · subst h
    exact ⟨rfl, rfl⟩
  · constructor <;> simp [fetchReports, hst, initialSidebarState]

/-- Witness for C10 at an empty store and a transport failure. -/
theorem C10_fetch_reports_failure_witness :
    (fetchReports initialSidebarState none HttpResult.networkError).1
        = { reports := [], loading := false,
            error := some "Unable to load reports" } ∧
    (fetchReports initialSidebarState none HttpResult.networkError).2
        = [reportsRequest (bearerIfTruthy none)] :=
  C10_fetch_reports_failure none HttpResult.networkError (Or.inl rfl)

/-- C1 counterexample: the message send issues its request with no
authorization header at all, and the sidebar list fetch with no stored
Credential still issues its request anonymously instead of rejecting
locally — contradicting the claim that every designated authenticated call
either carries the Credential or is rejected before any request. -/
theorem C1_counterexample :
    (sendMessage [] (some 1) "hello" HttpResult.networkError).requests.map
        Request.authorization = [none] ∧
    (fetchReports initialSidebarState none HttpResult.networkError).2
        = [reportsRequest none] ∧
    (reportsRequest none).authorization = none :=
  ⟨by decide, rfl, rfl⟩

/-- C1 amended: the identity check and the Gateway reject locally, issuing
no request, when no truthy Credential is stored, and otherwise attach the
stored Credential as a bearer header to every request they issue; the
sidebar list fetch always issues its one request, attaching the bearer
header only when a truthy Credential is stored and sending anonymously
otherwise; the report fetch by id and the message send always issue their
requests without any authorization header. -/
theorem C1_authorization_header_discipline :
    (∀ net : HttpResult UserInfo,
      getCurrentUser none net = { store := none, user := none, requests := [] }) ∧
    (∀ (t : String) (net : HttpResult UserInfo),
      ((getCurrentUser (some t) net).requests.all
        (fun r => r.authorization == some (bearer t))) = true) ∧
    (∀ (β : Type) (m e : String) (net : HttpResult β),
      (authenticatedFetch β none m e net).result
          = Except.error GatewayError.missingCredential ∧
      (authenticatedFetch β none m e net).requests = []) ∧
    (∀ (β : Type) (t m e : String) (net : HttpResult β),
      ((authenticatedFetch β (some t) m e net).requests.all
        (fun r => r.authorization == some (bearer t))) = true) ∧
    (∀ (st0 : SidebarState) (store : AuthService.TokenStore)
        (net : HttpResult (List ReportItem)),
      (fetchReports st0 store net).2.map Request.authorization
          = [bearerIfTruthy store]) ∧
    (∀ (rid : Nat) (net : HttpResult CompareResponse),
      (loadReport rid net).requests.map Request.authorization = [none]) ∧
    (∀ (ms : List Message) (rid : Option Nat) (msg : String)
        (net : HttpResult MessageResponse),
      ((sendMessage ms rid msg net).requests.all
        (fun r => r.authorization == none)) = true) := by
  refine ⟨fun net => rfl, ?_, fun β m e net => ⟨rfl, rfl⟩, ?_, ?_, ?_, ?_⟩
  · intro t net
    by_cases h : t = ""
    · subst h
      rfl
    · have hb : (t == "") = false := by simp [h]
      cases net with
      | networkError =>
        simp [getCurrentUser, tokenTruthy, AuthService.getToken, hb, authMeRequest]
      | response st b =>
        simp only [getCurrentUser, tokenTruthy, AuthService.getToken, hb,
          Bool.false_eq_true, if_false]
        split
        · simp [authMeRequest]
        · split <;> simp [authMeRequest]
  · intro β t m e net
    by_cases h : t = ""
    · subst h
      rfl
    · have hb : (t == "") = false := by simp [h]
      cases net with
      | networkError =>
        simp [authenticatedFetch, tokenTruthy, AuthService.getToken, hb]
      | response st b =>
        simp only [authenticatedFetch, tokenTruthy, AuthService.getToken, hb,
          Bool.false_eq_true, if_false]
        split <;> simp
  · intro st0 store net
    cases net with
    | networkError => rfl
    | response st b =>
      simp only [fetchReports]
      split <;> rfl
  · intro rid net
    cases net with
    | networkError => rfl
    | response st b =>
      simp only [loadReport]
      split <;> rfl
  · intro ms rid msg net
    simp only [sendMessage]
    split
    · rfl
    · match rid with
      | none => rfl
      | some r =>
        cases net with
        | networkError => simp [messageRequest]
        | response st b =>
          by_cases hst : statusOk st = true <;> simp [hst, messageRequest]

/-- Witness for C6 at a concrete store, method, endpoint and environment. -/
theorem C6_clear_then_missing_credential_witness :
    AuthService.getToken (AuthService.clearToken (some "tok")) = none ∧
    (authenticatedFetch Unit (AuthService.clearToken (some "tok")) "GET" "/reports"
        HttpResult.networkError).result
        = Except.error GatewayError.missingCredential ∧
    (authenticatedFetch Unit (AuthService.clearToken (some "tok")) "GET" "/reports"
        HttpResult.networkError).requests = [] :=
  C6_clear_then_missing_credential Unit (some "tok") "GET" "/reports"
    HttpResult.networkError

/-- Witness for the amended C4 at two concrete messages. -/
theorem C4_bootstrap_amended_witness :
    bootstrapMessages (some [{ role := Role.user, content := "m1" },
        { role := Role.assistant, content := "m2" }]) []
      = [{ role := Role.user, content := "m1" },
         { role := Role.assistant, content := "m2" }] ∧
    bootstrapMessages none [] = [welcomeMessage] ∧
    bootstrapMessages (some []) [] = [] ∧
    loadReportMessages (some [{ role := Role.user, content := "m1" },
        { role := Role.assistant, content := "m2" }])
      = [{ role := Role.user, content := "m1" },
         { role := Role.assistant, content := "m2" }] ∧
    loadReportMessages none = [welcomeMessage] ∧
    loadReportMessages (some []) = [] :=
  C4_bootstrap_amended { role := Role.user, content := "m1" }
    { role := Role.assistant, content := "m2" }

/-- Witness for the amended C2: an authenticated pass on the sign-in view. -/
theorem C2_gate_redirect_characterization_witness :
    (validateAuth (some "tok") none (HttpResult.response 200 demoUser) "/signin").redirect =
      (if (validateAuth (some "tok") none
              (HttpResult.response 200 demoUser) "/signin").user.isSome
          && ("/signin" == "/signin" || "/signin" == "/signup")
       then Redirect.toDashboard else Redirect.stay) :=
  C2_gate_redirect_characterization (some "tok") none
    (HttpResult.response 200 demoUser) "/signin"

end HackX
